import Mathlib

/-!
# Verification of the BlueWallet Paynym (BIP47 directory) core

Shallow embedding of `blue_modules/paynym/PaynymDirectory.ts` (directory
client, rate-limit retry, cache), `class/wallets/hd-segwit-bech32-wallet.ts`
(claim-signature generation), and the BIP47 contact-registry operations of
`abstract-hd-electrum-wallet.ts`, together with theorems settling the
specification's claims about them.

Conventions of the embedding:
* The injected transport collaborator `fetch(url, {method, headers, body})
  -> {ok, status, statusText, json(), headers.get(name)}` is modelled as a
  script: a list of outcomes, one consumed per call.  A rejected promise
  (network failure) is an `Except.error` carrying the error text; a
  delivered HTTP response is an `Except.ok`.  Per the WHATWG fetch
  standard (and the repository's own test double in
  `tests/unit/paynym-directory.test.ts`), `response.ok` is
  `200 <= status < 300`.
* The `Retry-After` header is carried already parsed to seconds
  (`parseInt(retryAfter)` in the source); `none` models an absent header.
* JavaScript `Date.now()` is an explicit `now : Nat` parameter (epoch ms);
  `AsyncStorage` is an explicit association list threaded through the
  state-passing functions.
-/

namespace Paynym

/-- JavaScript string-or-default: `s || d` where `undefined`, `null` and the
empty string are falsy. -/
def jsOrElse (s : Option String) (d : String) : String :=
  match s with
  | some v => if v = "" then d else v
  | none => d

/-- One linked payment code of a directory account
(`PaynymAccount.codes` element: `{claimed, segwit, code}`). -/
structure CodeEntry where
  claimed : Bool
  segwit : Bool
  code : String
deriving DecidableEq, Repr

/-- One follower/following relation entry (`{nymId}`). -/
structure Follower where
  nymId : String
deriving DecidableEq, Repr

/-- The parsed JSON body of a directory response.  The dynamic
`Record<string, any>` of the source is modelled as a record carrying every
field any endpoint reads, each defaulted; `message` is optional because the
endpoints' `default:` branches guard it with `result.message || ...`. -/
structure RespJson where
  message : Option String := none
  token : Option String := none
  nymID : String := ""
  nymName : String := ""
  codes : List CodeEntry := []
  followers : List Follower := []
  following : List Follower := []
deriving DecidableEq, Repr

/-- A delivered HTTP response as seen through the transport collaborator:
`{ok, status, statusText, json(), headers.get('Retry-After')}`.  `ok` is
derived from `status` (see module header). -/
structure FetchResponse where
  status : Nat
  statusText : String := "Error"
  json : RespJson := {}
  retryAfter : Option Nat := none
deriving DecidableEq, Repr

/-- Embeds `response.ok`: status in the inclusive range 200..299. -/
def httpOk (status : Nat) : Bool := 200 ≤ status && status < 300

/-- One transport call outcome: a rejected promise with an error message, or
a delivered response. -/
abbrev FetchOutcome : Type := Except String FetchResponse

/-- The transport script: successive `fetch` calls consume successive
entries.  An exhausted script behaves as a network failure. -/
abbrev Script : Type := List FetchOutcome

/-- What `PaynymDirectory._post` produces: either the pair
`[data, statusCode]` or a thrown error (network failure or the
`HTTP <status>: <statusText>` error it raises on a non-ok response). -/
inductive PostOutcome where
  | ok (data : RespJson) (statusCode : Nat)
  | thrown (msg : String)
deriving DecidableEq, Repr

/-- The observable trace of one `_post` invocation: its outcome, how many
transport (`fetch`) calls it made, and the waits (ms) it performed before
retrying rate-limited requests. -/
structure PostTrace where
  outcome : PostOutcome
  calls : Nat
  waits : List Nat
deriving DecidableEq, Repr

/-- Embeds `PaynymDirectory._post` (PaynymDirectory.ts lines 715-775): makes the
request; on HTTP 429 waits `Retry-After` seconds (default 5000 ms) and
retries exactly once; throws `HTTP <status>: <statusText>` on any other
non-ok response (and on a non-ok retry response); returns
`[json, status]` otherwise. -/
def post (script : Script) : PostTrace :=
  match script with
  | [] => ⟨.thrown "Network request failed", 0, []⟩
  | .error e :: _ => ⟨.thrown e, 1, []⟩
  | .ok r :: rest =>
    if r.status = 429 then
      let waitTime := match r.retryAfter with
        | some secs => secs * 1000
        | none => 5000
      match rest with
      | [] => ⟨.thrown "Network request failed", 2, [waitTime]⟩
      | .error e :: _ => ⟨.thrown e, 2, [waitTime]⟩
      | .ok r2 :: _ =>
        if httpOk r2.status then ⟨.ok r2.json r2.status, 2, [waitTime]⟩
        else ⟨.thrown ("HTTP " ++ toString r2.status ++ ": " ++ r2.statusText), 2, [waitTime]⟩
    else if httpOk r.status then ⟨.ok r.json r.status, 1, []⟩
    else ⟨.thrown ("HTTP " ++ toString r.status ++ ": " ++ r.statusText), 1, []⟩

/-- The tagged result `{value, statusCode, message}` every directory
operation returns (`PaynymResponse<T>`); `value` is the whole response
JSON when the endpoint succeeds (the `result as T` casts of the source),
`statusCode` is an `Int` because transport failures are mapped to `-1`. -/
structure PaynymResponse where
  value : Option RespJson
  statusCode : Int
  message : String
deriving DecidableEq, Repr

/-- Embeds `PaynymDirectory.create` (lines 787-824): status-to-message mapping for
`POST /create`; any thrown `_post` error becomes the `-1` sentinel. -/
def create (script : Script) : PaynymResponse :=
  match (post script).outcome with
  | .thrown msg => ⟨none, -1, msg⟩
  | .ok result statusCode =>
    if statusCode = 201 then ⟨some result, 201, "PayNym created successfully"⟩
    else if statusCode = 200 then ⟨some result, 200, "PayNym already exists"⟩
    else if statusCode = 400 then ⟨none, 400, "Bad request: Invalid payment code format"⟩
    else ⟨none, statusCode, jsOrElse result.message "Unknown error"⟩

/-- Embeds `PaynymDirectory.token` (lines 833-863): status-to-message mapping for
`POST /token`. -/
def token (script : Script) : PaynymResponse :=
  match (post script).outcome with
  | .thrown msg => ⟨none, -1, msg⟩
  | .ok result statusCode =>
    if statusCode = 200 then ⟨some result, 200, "Token was successfully updated"⟩
    else if statusCode = 404 then ⟨none, 404, "Payment code was not found in database"⟩
    else if statusCode = 400 then ⟨none, 400, "Bad request: Invalid payment code format"⟩
    else ⟨none, statusCode, jsOrElse result.message "Unknown error"⟩

/-- Embeds `PaynymDirectory.nym` (lines 876-914): status-to-message mapping for
`POST /nym`. -/
def nym (script : Script) : PaynymResponse :=
  match (post script).outcome with
  | .thrown msg => ⟨none, -1, msg⟩
  | .ok result statusCode =>
    if statusCode = 200 then ⟨some result, 200, "Nym found and returned"⟩
    else if statusCode = 404 then ⟨none, 404, "Nym not found"⟩
    else if statusCode = 400 then ⟨none, 400, "Bad request: Invalid nym identifier"⟩
    else ⟨none, statusCode, jsOrElse result.message "Unknown error"⟩

/-- Embeds `PaynymDirectory.claim` (lines 931-977): status-to-message mapping for
the authenticated `POST /claim`. -/
def claim (script : Script) : PaynymResponse :=
  match (post script).outcome with
  | .thrown msg => ⟨none, -1, msg⟩
  | .ok result statusCode =>
    if statusCode = 200 then ⟨some result, 200, "Payment code successfully claimed"⟩
    else if statusCode = 400 then ⟨none, 400, "Bad request: Missing signature or already claimed"⟩
    else if statusCode = 401 then
      ⟨none, 401, "Unauthorized: Invalid token, signature, or unclaimed payment code"⟩
    else ⟨none, statusCode, jsOrElse result.message "Unknown error"⟩

/-- Embeds `PaynymDirectory.follow` (lines 995-1037): status-to-message mapping for
the authenticated `POST /follow`. -/
def follow (script : Script) : PaynymResponse :=
  match (post script).outcome with
  | .thrown msg => ⟨none, -1, msg⟩
  | .ok result statusCode =>
    if statusCode = 200 then ⟨some result, 200, "Added to followers"⟩
    else if statusCode = 404 then ⟨none, 404, "Target nym not found"⟩
    else if statusCode = 400 then ⟨none, 400, "Bad request: Missing fields or cannot follow yourself"⟩
    else if statusCode = 401 then
      ⟨none, 401, "Unauthorized: Invalid token, signature, or unclaimed payment code"⟩
    else ⟨none, statusCode, jsOrElse result.message "Unknown error"⟩

/-- Embeds `PaynymDirectory.unfollow` (lines 1055-1097): status-to-message mapping
for the authenticated `POST /unfollow`. -/
def unfollow (script : Script) : PaynymResponse :=
  match (post script).outcome with
  | .thrown msg => ⟨none, -1, msg⟩
  | .ok result statusCode =>
    if statusCode = 200 then ⟨some result, 200, "Unfollowed successfully"⟩
    else if statusCode = 404 then ⟨none, 404, "Target nym not found"⟩
    else if statusCode = 400 then ⟨none, 400, "Bad request: Not currently following this nym"⟩
    else if statusCode = 401 then
      ⟨none, 401, "Unauthorized: Invalid token, signature, or unclaimed payment code"⟩
    else ⟨none, statusCode, jsOrElse result.message "Unknown error"⟩

/-! ## Local cache over AsyncStorage (PaynymDirectory.ts lines 1163-1305) -/

/-- The summary the cache stores (`PaynymInfo`): every field except `code`
is optional in the source interface. -/
structure PaynymInfo where
  code : String
  nymID : Option String := none
  nymName : Option String := none
  followers : Option Nat := none
  following : Option Nat := none
  cached_at : Option Nat := none
deriving DecidableEq, Repr

/-- A value held by `AsyncStorage`: either the JSON serialization of a
`PaynymInfo` (what the cache writes), or opaque unrelated data that does
not parse as one. -/
inductive StoredVal where
  | info (i : PaynymInfo)
  | raw (s : String)
deriving DecidableEq, Repr

/-- The `AsyncStorage` contents: keys to stored values, in insertion order,
each key at most once by construction of `setItem`. -/
abbrev Store : Type := List (String × StoredVal)

/-- Embeds `AsyncStorage.getItem`. -/
def getItem (key : String) : Store → Option StoredVal
  | [] => none
  | (k, v) :: rest => if k = key then some v else getItem key rest

/-- Embeds `AsyncStorage.setItem`: overwrite in place if the key exists, else
append. -/
def setItem (key : String) (v : StoredVal) : Store → Store
  | [] => [(key, v)]
  | (k, w) :: rest => if k = key then (key, v) :: rest else (k, w) :: setItem key v rest

/-- Embeds `AsyncStorage.removeItem`: delete the entry with the given key. -/
def removeItem (key : String) (st : Store) : Store :=
  st.filter (fun kv => kv.1 != key)

/-- Embeds `AsyncStorage.getAllKeys`. -/
def getAllKeys (st : Store) : List String := st.map Prod.fst

/-- The cache's key namespace, `'paynym_dir_'` (the STORAGE KEY constant of
PaynymDirectory.ts line 603). -/
def storageKeyStart : String := "paynym_dir_"

/-- Embeds `CACHE_DURATION`: 24 hours in milliseconds. -/
def CACHE_DURATION : Nat := 24 * 60 * 60 * 1000

/-- The storage key for one payment code's cache entry. -/
def cacheKey (paymentCode : String) : String := storageKeyStart ++ paymentCode

/-- Embeds `PaynymDirectory.getCachedPaynymInfo` (lines 1221-1232): read and
JSON-parse the cache entry; data that does not parse yields `null` (the
catch branch). -/
def getCachedPaynymInfo (paymentCode : String) (store : Store) : Option PaynymInfo :=
  match getItem (cacheKey paymentCode) store with
  | some (.info i) => some i
  | some (.raw _) => none
  | none => none

/-- Embeds `PaynymDirectory.cachePaynymInfo` (lines 1237-1247). -/
def cachePaynymInfo (paymentCode : String) (info : PaynymInfo) (store : Store) : Store :=
  setItem (cacheKey paymentCode) (.info info) store

/-- Embeds `PaynymDirectory.getPaynymInfo` (lines 1170-1189): one `nym(code, true)`
directory fetch; on `value && statusCode === 200` builds the summary
stamped with `Date.now()`; otherwise (or on a thrown error) `null`. -/
def getPaynymInfo (paymentCode : String) (now : Nat) (script : Script) : Option PaynymInfo :=
  match (nym script).value with
  | some account =>
    if (nym script).statusCode = 200 then
      some { code := paymentCode, nymID := some account.nymID,
             nymName := some account.nymName,
             followers := some account.followers.length,
             following := some account.following.length,
             cached_at := some now }
    else none
  | none => none

/-- Result of one `getPaynymInfoCached` call: the returned value, the
storage afterwards, and how many directory fetches (`getPaynymInfo`
calls) were performed. -/
structure CachedResult where
  info : Option PaynymInfo
  store : Store
  nymCalls : Nat
deriving DecidableEq, Repr

/-- Embeds `PaynymDirectory.getPaynymInfoCached` (lines 1194-1216): serve a cache
entry younger than `CACHE_DURATION` unless `forceRefresh`; otherwise fetch
fresh and, only on success, write the cache entry before returning.  An
entry without a `cached_at` stamp has `NaN` age in the source, which is
never `< CACHE_DURATION`, so it is treated as stale. -/
def getPaynymInfoCached (paymentCode : String) (forceRefresh : Bool) (now : Nat)
    (script : Script) (store : Store) : CachedResult :=
  let fetchFresh : CachedResult :=
    match getPaynymInfo paymentCode now script with
    | some i => ⟨some i, cachePaynymInfo paymentCode i store, 1⟩
    | none => ⟨none, store, 1⟩
  if forceRefresh then fetchFresh
  else
    match getCachedPaynymInfo paymentCode store with
    | some cached =>
      match cached.cached_at with
      | some t => if now - t < CACHE_DURATION then ⟨some cached, store, 0⟩ else fetchFresh
      | none => fetchFresh
    | none => fetchFresh

/-- Embeds `PaynymDirectory.clearCache` (lines 1292-1305): list all keys, keep the
ones in the cache namespace, remove each. -/
def clearCache (store : Store) : Store :=
  let keys := getAllKeys store
  let paynymKeys := keys.filter (fun k => k.startsWith storageKeyStart)
  paynymKeys.foldl (fun st k => removeItem k st) store

/-! ## BIP47 contact registry

`addBIP47Receiver` and `fetchBIP47ReceiverPaymentCodesViaPaynym` live in
`class/wallets/abstract-hd-electrum-wallet.ts`, which is not among the
sources; only their unit tests and callers are.  They are therefore
modelled from the spec (§4.4 ContactRegistry). -/

/-- Modelled from the spec: the wallet state the ContactRegistry operations
touch — the BIP47 feature flag, the wallet's own payment code, and the
ordered-insertion sender (`_send_payment_codes`) and receiver
(`_receive_payment_codes`) lists (spec §4.4; `abstract-hd-electrum-wallet.ts`
is not among the sources). -/
structure BIP47WalletState where
  bip47Enabled : Bool
  myPaymentCode : String
  sendPaymentCodes : List String
  receivePaymentCodes : List String
deriving DecidableEq, Repr

/-- Modelled from the spec: `addBIP47Receiver` / `addToSenderList(code)` —
"idempotent — adding an already-present code is a no-op for list membership
(no duplicate entries); the same code may independently already exist in
the receiver list" (spec §4.4; implementation not among the sources). -/
def addBIP47Receiver (w : BIP47WalletState) (code : String) : BIP47WalletState :=
  if code ∈ w.sendPaymentCodes then w
  else { w with sendPaymentCodes := w.sendPaymentCodes ++ [code] }

/-- One directory account as the reconciliation walk sees it: its id, its
linked codes with their `claimed` flags, and its (possibly absent)
`following` relation. -/
structure DirAccount where
  nymID : String
  codes : List CodeEntry
  following : Option (List String) := none
deriving DecidableEq, Repr

/-- Directory resolution for `nym(identifier)`: an account matches by nymID
or by any of its linked payment codes; `none` models 404/no response. -/
def dirLookup (dir : List DirAccount) (q : String) : Option DirAccount :=
  dir.find? (fun a => a.nymID = q || a.codes.any (fun c => c.code = q))

/-- Modelled from the spec: the code-selection policy of
`reconcileFromDirectory` — "prefer the first code flagged `claimed: true`;
if none are claimed, fall back to the first code in the list order"
(spec §4.4). -/
def selectPaymentCode (codes : List CodeEntry) : Option String :=
  match codes.find? (fun c => c.claimed) with
  | some c => some c.code
  | none => codes.head?.map (fun c => c.code)

/-- Modelled from the spec: `fetchBIP47ReceiverPaymentCodesViaPaynym` /
`reconcileFromDirectory()` — resolve the wallet's own account, read its
`following` relation, resolve each followed nym, select one payment code
per nym by `selectPaymentCode`, and add it to the sender list unless
already present; a no-op when the feature is disabled, the directory
returns no account, or `following` is absent or empty (spec §4.4;
implementation not among the sources). -/
def fetchBIP47ReceiverPaymentCodesViaPaynym (w : BIP47WalletState)
    (dir : List DirAccount) : BIP47WalletState :=
  if !w.bip47Enabled then w
  else
    match dirLookup dir w.myPaymentCode with
    | none => w
    | some myAccount =>
      match myAccount.following with
      | none => w
      | some followedIds =>
        followedIds.foldl (fun st followedId =>
          match dirLookup dir followedId with
          | none => st
          | some followedAccount =>
            match selectPaymentCode followedAccount.codes with
            | none => st
            | some code => addBIP47Receiver st code) w

/-! ## Request serialization and Content-Length (PaynymDirectory.ts lines 722-731)

`_post` serializes the body with `JSON.stringify` and computes
`Content-Length` as `new Blob([bodyString]).size` — the UTF-8 byte length
of the serialized body. -/

/-- A JSON value occurring in a request body: the bodies are flat records
of strings and booleans (`{code}`, `{nym, compact}`, `{signature}`,
`{target, signature}`, `{nym, code, signature, segwit}`). -/
inductive JVal where
  | str (s : String)
  | bool (b : Bool)
deriving DecidableEq, Repr

/-- Lowercase hexadecimal digit, as JavaScript `toString(16)` produces. -/
def hexDigitChar (n : Nat) : Char :=
  if n < 10 then Char.ofNat (48 + n) else Char.ofNat (87 + n)

/-- The `JSON.stringify` escaping of one character: quote, backslash, the named
control escapes, `\u00XX` for other control characters, everything else
(multi-byte characters included) verbatim. -/
def escapeJsonChar (c : Char) : List Char :=
  if c = Char.ofNat 34 then [Char.ofNat 92, Char.ofNat 34]
  else if c = Char.ofNat 92 then [Char.ofNat 92, Char.ofNat 92]
  else if c = Char.ofNat 8 then [Char.ofNat 92, 'b']
  else if c = Char.ofNat 9 then [Char.ofNat 92, 't']
  else if c = Char.ofNat 10 then [Char.ofNat 92, 'n']
  else if c = Char.ofNat 12 then [Char.ofNat 92, 'f']
  else if c = Char.ofNat 13 then [Char.ofNat 92, 'r']
  else if c.toNat < 32 then
    [Char.ofNat 92, 'u', '0', '0', hexDigitChar (c.toNat / 16), hexDigitChar (c.toNat % 16)]
  else [c]

/-- The `JSON.stringify` escaping of a character sequence. -/
def escapeJsonChars : List Char → List Char
  | [] => []
  | c :: cs => escapeJsonChar c ++ escapeJsonChars cs

/-- A JSON string literal: quote, escaped contents, quote. -/
def quoteJsonChars (s : List Char) : List Char :=
  Char.ofNat 34 :: escapeJsonChars s ++ [Char.ofNat 34]

/-- Serialization of one body value. -/
def serializeJVal : JVal → List Char
  | .str s => quoteJsonChars s.data
  | .bool b => if b then "true".data else "false".data

/-- Serialization of one `key: value` body field. -/
def jsonFieldChars (kv : String × JVal) : List Char :=
  quoteJsonChars kv.1.data ++ ':' :: serializeJVal kv.2

/-- Comma-separated serialization of the body fields, in insertion order. -/
def jsonFieldsChars : List (String × JVal) → List Char
  | [] => []
  | [kv] => jsonFieldChars kv
  | kv :: rest => jsonFieldChars kv ++ ',' :: jsonFieldsChars rest

/-- Embeds `JSON.stringify(body)` for a flat record body. -/
def jsonStringify (body : List (String × JVal)) : String :=
  ⟨Char.ofNat 123 :: jsonFieldsChars body ++ [Char.ofNat 125]⟩

/-- Embeds `new Blob([s]).size`: the size in bytes of the blob holding the UTF-8
encoding of `s`. -/
def blobSize (s : String) : Nat := s.utf8ByteSize

/-- The `Content-Length` header value `_post` computes (lines 724-725):
`new Blob([JSON.stringify(body)]).size`. -/
def contentLength (body : List (String × JVal)) : Nat := blobSize (jsonStringify body)

/-- The UTF-8 encoding of one character (RFC 3629), as a byte list. -/
def utf8EncodeChar (c : Char) : List Nat :=
  if c.toNat < 128 then [c.toNat]
  else if c.toNat < 2048 then [192 + c.toNat / 64, 128 + c.toNat % 64]
  else if c.toNat < 65536 then
    [224 + c.toNat / 4096, 128 + c.toNat / 64 % 64, 128 + c.toNat % 64]
  else
    [240 + c.toNat / 262144, 128 + c.toNat / 4096 % 64, 128 + c.toNat / 64 % 64,
     128 + c.toNat % 64]

/-- The UTF-8 encoding of a character sequence. -/
def utf8Encode : List Char → List Nat
  | [] => []
  | c :: cs => utf8EncodeChar c ++ utf8Encode cs

/-! ## The claim-signature pipeline

`HDSegwitBech32Wallet.generatePaynymClaimSignature` signs the raw token
string with `bitcoinMessage.sign(token, notificationPrivateKey, true)` and
base64-encodes the 65-byte recoverable signature.  The library pipeline it
invokes (documented in the source, lines 172-189) is embedded concretely:
Bitcoin's signed-message transform (magic prefix, varint length, double
SHA-256), deterministic RFC 6979 nonces, recoverable ECDSA over secp256k1
with low-s normalization.  Machine words are `Nat`s reduced by explicit
masking. -/

/-- Truncation to a 32-bit word. -/
def w32 (x : Nat) : Nat := x % 4294967296

/-- Right rotation of a 32-bit word. -/
def rotr32 (n x : Nat) : Nat := w32 ((x >>> n) ||| (x <<< (32 - n)))

/-- SHA-256 `Ch`. -/
def ch (x y z : Nat) : Nat := (x &&& y) ^^^ ((x ^^^ 4294967295) &&& z)

/-- SHA-256 `Maj`. -/
def maj (x y z : Nat) : Nat := (x &&& y) ^^^ (x &&& z) ^^^ (y &&& z)

/-- SHA-256 `Σ₀`. -/
def bigSigma0 (x : Nat) : Nat := rotr32 2 x ^^^ rotr32 13 x ^^^ rotr32 22 x

/-- SHA-256 `Σ₁`. -/
def bigSigma1 (x : Nat) : Nat := rotr32 6 x ^^^ rotr32 11 x ^^^ rotr32 25 x

/-- SHA-256 `σ₀`. -/
def smallSigma0 (x : Nat) : Nat := rotr32 7 x ^^^ rotr32 18 x ^^^ (x >>> 3)

/-- SHA-256 `σ₁`. -/
def smallSigma1 (x : Nat) : Nat := rotr32 17 x ^^^ rotr32 19 x ^^^ (x >>> 10)

/-- The 64 SHA-256 round constants (FIPS 180-4 §4.2.2). -/
def shaK : List Nat :=
  [1116352408, 1899447441, 3049323471, 3921009573, 961987163,
   1508970993, 2453635748, 2870763221, 3624381080, 310598401,
   607225278, 1426881987, 1925078388, 2162078206, 2614888103,
   3248222580, 3835390401, 4022224774, 264347078, 604807628,
   770255983, 1249150122, 1555081692, 1996064986, 2554220882,
   2821834349, 2952996808, 3210313671, 3336571891, 3584528711,
   113926993, 338241895, 666307205, 773529912, 1294757372,
   1396182291, 1695183700, 1986661051, 2177026350, 2456956037,
   2730485921, 2820302411, 3259730800, 3345764771, 3516065817,
   3600352804, 4094571909, 275423344, 430227734, 506948616,
   659060556, 883997877, 958139571, 1322822218, 1537002063,
   1747873779, 1955562222, 2024104815, 2227730452, 2361852424,
   2428436474, 2756734187, 3204031479, 3329325298]

/-- The eight SHA-256 initial hash values (FIPS 180-4 §5.3.3). -/
def shaInit : List Nat :=
  [1779033703, 3144134277, 1013904242, 2773480762,
   1359893119, 2600822924, 528734635, 1541459225]

/-- Big-endian bytes of `x`, exactly `numBytes` long (most significant
first, truncating above). -/
def natToBytesBE : Nat → Nat → List Nat
  | 0, _ => []
  | n + 1, x => natToBytesBE n (x / 256) ++ [x % 256]

/-- Big-endian byte list to `Nat`. -/
def bytesToNatBE (bytes : List Nat) : Nat :=
  bytes.foldl (fun acc b => acc * 256 + b) 0

/-- Group bytes into big-endian 32-bit words. -/
def bytesToWords : List Nat → List Nat
  | a :: b :: c :: d :: rest => (a * 16777216 + b * 65536 + c * 256 + d) :: bytesToWords rest
  | _ => []

/-- Extend the 16-word message schedule by `n` further words
(FIPS 180-4 §6.2.2 step 1); the words produced so far are carried most
recent first, so `W[i-2], W[i-7], W[i-15], W[i-16]` sit at positions
`1, 6, 14, 15`. -/
def extendSchedule : Nat → List Nat → List Nat
  | 0, wrev => wrev.reverse
  | n + 1, wrev =>
    let x := w32 (smallSigma1 (wrev.getD 1 0) + wrev.getD 6 0 +
      smallSigma0 (wrev.getD 14 0) + wrev.getD 15 0)
    extendSchedule n (x :: wrev)

/-- One SHA-256 compression round on the eight working registers. -/
def compressRound (k w : Nat) : List Nat → List Nat
  | [a, b, c, d, e, f, g, h] =>
    let t1 := w32 (h + bigSigma1 e + ch e f g + k + w)
    let t2 := w32 (bigSigma0 a + maj a b c)
    [w32 (t1 + t2), a, b, c, w32 (d + t1), e, f, g]
  | regs => regs

/-- SHA-256 compression of one 64-byte block into the running digest. -/
def compressBlock (hs : List Nat) (block : List Nat) : List Nat :=
  let ws := extendSchedule 48 (bytesToWords block).reverse
  let regs := (List.zip shaK ws).foldl (fun regs kw => compressRound kw.1 kw.2 regs) hs
  List.zipWith (fun x y => w32 (x + y)) hs regs

/-- SHA-256 padding: `0x80`, zeros to 56 mod 64, 64-bit big-endian bit
length. -/
def padMessage (msg : List Nat) : List Nat :=
  let padZeros := (119 - msg.length % 64) % 64
  msg ++ 128 :: List.replicate padZeros 0 ++ natToBytesBE 8 (msg.length * 8)

/-- Split into 64-byte blocks (`fuel` bounds the recursion structurally). -/
def splitBlocksAux : Nat → List Nat → List (List Nat)
  | 0, _ => []
  | _, [] => []
  | fuel + 1, l => l.take 64 :: splitBlocksAux fuel (l.drop 64)

/-- SHA-256 of a byte list, as a 32-byte list. -/
def sha256Bytes (msg : List Nat) : List Nat :=
  let padded := padMessage msg
  let blocks := splitBlocksAux (padded.length / 64) padded
  (blocks.foldl compressBlock shaInit).foldr (fun wrd acc => natToBytesBE 4 wrd ++ acc) []

/-- HMAC-SHA256 (FIPS 198-1), block size 64. -/
def hmacSha256 (key msg : List Nat) : List Nat :=
  let k0 := if 64 < key.length then sha256Bytes key else key
  let kPadded := k0 ++ List.replicate (64 - k0.length) 0
  sha256Bytes ((kPadded.map (fun b => b ^^^ 0x5c)) ++
    sha256Bytes ((kPadded.map (fun b => b ^^^ 0x36)) ++ msg))

/-- The secp256k1 field modulus. -/
def P : Nat := 0xFFFFFFFFFFFFFFFFFFFFFFFFFFFFFFFFFFFFFFFFFFFFFFFFFFFFFFFEFFFFFC2F

/-- The secp256k1 group order. -/
def N : Nat := 0xFFFFFFFFFFFFFFFFFFFFFFFFFFFFFFFEBAAEDCE6AF48A03BBFD25E8CD0364141

/-- The secp256k1 base point x-coordinate. -/
def Gx : Nat := 0x79BE667EF9DCBBAC55A06295CE870B07029BFCDB2DCE28D959F2815B16F81798

/-- The secp256k1 base point y-coordinate. -/
def Gy : Nat := 0x483ADA7726A3C4655DA4FBFC0E1108A8FD17B448A68554199C47D08FFB10D4B8

/-- Modular exponentiation by repeated squaring; the fuel (300 > 256 bits)
keeps the recursion structural so that the kernel can evaluate it. -/
def powModAux : Nat → Nat → Nat → Nat → Nat
  | 0, _, _, m => 1 % m
  | fuel + 1, b, e, m =>
    if e = 0 then 1 % m
    else
      let r := powModAux fuel ((b * b) % m) (e / 2) m
      if e % 2 = 1 then (r * b) % m else r

/-- Computes `b ^ e mod m`. -/
def powMod (b e m : Nat) : Nat := powModAux 300 (b % m) e m

/-- Modular inverse in a prime field, via Fermat's little theorem. -/
def modInv (a m : Nat) : Nat := powMod a (m - 2) m

/-- Modular subtraction on `Nat`. -/
def modSub (a b m : Nat) : Nat := (a % m + (m - b % m)) % m

/-- A point of the curve in affine coordinates; `none` is the point at
infinity. -/
abbrev Point := Option (Nat × Nat)

/-- A point in Jacobian coordinates `(X, Y, Z)` with `x = X/Z²`,
`y = Y/Z³`; `Z ≡ 0` is the point at infinity.  Jacobian coordinates defer
the field inversions to a single one at the end of a scalar
multiplication. -/
abbrev JacPoint := Nat × Nat × Nat

/-- Doubling on secp256k1 (`y² = x³ + 7` over `F_P`, curve parameter
`a = 0`) in Jacobian coordinates.  A point with `Y ≡ 0` or `Z ≡ 0` yields
`Z' ≡ 0`, the point at infinity, as required. -/
def jacDouble (p : JacPoint) : JacPoint :=
  let (x, y, z) := p
  let ysq := y * y % P
  let s := 4 * x * ysq % P
  let m := 3 * x * x % P
  let x' := modSub (m * m) (2 * s) P
  let y' := modSub (m * modSub s x' P) (8 * ysq * ysq) P
  (x', y', 2 * y * z % P)

/-- The secp256k1 group law in Jacobian coordinates. -/
def jacAdd (p q : JacPoint) : JacPoint :=
  let (x1, y1, z1) := p
  let (x2, y2, z2) := q
  if z1 % P = 0 then q
  else if z2 % P = 0 then p
  else
    let z1sq := z1 * z1 % P
    let z2sq := z2 * z2 % P
    let u1 := x1 * z2sq % P
    let u2 := x2 * z1sq % P
    let s1 := y1 * z2sq % P * z2 % P
    let s2 := y2 * z1sq % P * z1 % P
    if u1 = u2 then
      if s1 = s2 then jacDouble p else (0, 1, 0)
    else
      let h := modSub u2 u1 P
      let r := modSub s2 s1 P
      let hsq := h * h % P
      let hcb := hsq * h % P
      let u1hsq := u1 * hsq % P
      let x3 := modSub (r * r) (hcb + 2 * u1hsq) P
      let y3 := modSub (r * modSub u1hsq x3 P) (s1 * hcb) P
      (x3, y3, h * z1 % P * z2 % P)

/-- Double-and-add scalar multiplication in Jacobian coordinates
(structural fuel, 300 > 256 bits). -/
def scalarMulAux : Nat → Nat → JacPoint → JacPoint → JacPoint
  | 0, _, _, acc => acc
  | fuel + 1, k, base, acc =>
    if k = 0 then acc
    else scalarMulAux fuel (k / 2) (jacDouble base)
      (if k % 2 = 1 then jacAdd acc base else acc)

/-- Computes `k · p` on secp256k1, in and out of affine coordinates. -/
def scalarMul (k : Nat) (p : Point) : Point :=
  match p with
  | none => none
  | some (x, y) =>
    let (xj, yj, zj) := scalarMulAux 300 k (x, y, 1) (0, 1, 0)
    if zj % P = 0 then none
    else
      let zi := modInv zj P
      let zisq := zi * zi % P
      some (xj * zisq % P, yj * zisq % P * zi % P)

/-- RFC 6979 `int2octets` for a 256-bit group order. -/
def int2octets32 (x : Nat) : List Nat := natToBytesBE 32 x

/-- A 65-byte recoverable ECDSA signature: recovery id, `r`, `s`. -/
structure RecoverableSig where
  recid : Nat
  r : Nat
  s : Nat
deriving DecidableEq, Repr

/-- The RFC 6979 HMAC-DRBG candidate loop fused with the ECDSA signing
equations: draw `k`, compute `R = k·G`, `r = R.x mod N`,
`s = k⁻¹(z + r·d) mod N`, redraw on a degenerate `k`, `r` or `s`, and
normalize to the low-s form flipping the recovery id's parity (as the
secp256k1 signing libraries do).  The fuel bounds the redraw loop; the
all-zero fallback is unreachable for valid keys. -/
def signLoop : Nat → List Nat → List Nat → Nat → Nat → RecoverableSig
  | 0, _, _, _, _ => ⟨0, 0, 0⟩
  | fuel + 1, bK, bV, d, z =>
    let V' := hmacSha256 bK bV
    let k := bytesToNatBE V'
    let redraw : RecoverableSig :=
      let K' := hmacSha256 bK (V' ++ [0])
      signLoop fuel K' (hmacSha256 K' V') d z
    if 1 ≤ k ∧ k < N then
      match scalarMul k (some (Gx, Gy)) with
      | none => redraw
      | some (rx, ry) =>
        let r := rx % N
        let s := (modInv k N * ((z % N + r * d % N) % N)) % N
        if r = 0 ∨ s = 0 then redraw
        else
          let recid0 := (if N ≤ rx then 2 else 0) + ry % 2
          if N < s * 2 then ⟨recid0 ^^^ 1, r, N - s⟩ else ⟨recid0, r, s⟩
    else redraw

/-- Recoverable ECDSA over secp256k1 with the RFC 6979 deterministic nonce
(HMAC-DRBG seeded from the private key and the message hash). -/
def ecdsaSignRecoverable (d z : Nat) : RecoverableSig :=
  let x := int2octets32 d
  let zo := int2octets32 (z % N)
  let V0 := List.replicate 32 1
  let K0 := List.replicate 32 0
  let K1 := hmacSha256 K0 (V0 ++ 0 :: x ++ zo)
  let V1 := hmacSha256 K1 V0
  let K2 := hmacSha256 K1 (V1 ++ 1 :: x ++ zo)
  signLoop 10 K2 (hmacSha256 K2 V1) d z

/-- Bitcoin's variable-length integer encoding (little-endian). -/
def varintBytes (n : Nat) : List Nat :=
  if n < 253 then [n]
  else if n < 65536 then 253 :: (natToBytesBE 2 n).reverse
  else if n < 4294967296 then 254 :: (natToBytesBE 4 n).reverse
  else 255 :: (natToBytesBE 8 n).reverse

/-- The signed-message magic prefix: the varint length byte `0x18` followed
by `"Bitcoin Signed Message:\n"`. -/
def messagePrefixBytes : List Nat := 24 :: utf8Encode "Bitcoin Signed Message:\n".data

/-- The Bitcoin signed-message hash: double SHA-256 of
`magic ‖ varint(len(message)) ‖ message` (the transform the source
documents at lines 176-179). -/
def magicHash (message : String) : Nat :=
  let msgBytes := utf8Encode message.data
  bytesToNatBE (sha256Bytes (sha256Bytes
    (messagePrefixBytes ++ varintBytes msgBytes.length ++ msgBytes)))

/-- Embeds `bitcoinMessage.sign(message, privateKey, compressed)`: the 65-byte
recoverable signature — header `27 + recid (+4 when compressed)`, then
`r` and `s` as 32-byte big-endian integers. -/
def bitcoinMessageSign (message : String) (d : Nat) (compressed : Bool) : List Nat :=
  let sig := ecdsaSignRecoverable d (magicHash message)
  (27 + sig.recid + if compressed then 4 else 0) :: int2octets32 sig.r ++ int2octets32 sig.s

/-- The base64 alphabet. -/
def base64Alphabet : List Char :=
  "ABCDEFGHIJKLMNOPQRSTUVWXYZabcdefghijklmnopqrstuvwxyz0123456789+/".data

/-- Base64 encoding of a byte list, with `=` padding
(`Buffer.toString('base64')`). -/
def base64Aux : List Nat → List Char
  | a :: b :: c :: rest =>
    let x := a * 65536 + b * 256 + c
    base64Alphabet.getD (x / 262144) 'A' :: base64Alphabet.getD (x / 4096 % 64) 'A' ::
      base64Alphabet.getD (x / 64 % 64) 'A' :: base64Alphabet.getD (x % 64) 'A' :: base64Aux rest
  | [a, b] =>
    let x := a * 65536 + b * 256
    [base64Alphabet.getD (x / 262144) 'A', base64Alphabet.getD (x / 4096 % 64) 'A',
     base64Alphabet.getD (x / 64 % 64) 'A', '=']
  | [a] =>
    let x := a * 65536
    [base64Alphabet.getD (x / 262144) 'A', base64Alphabet.getD (x / 4096 % 64) 'A', '=', '=']
  | [] => []

/-- Embeds `Buffer.from(bytes).toString('base64')`. -/
def base64Encode (bytes : List Nat) : String := ⟨base64Aux bytes⟩

/-! ## The wallet wrapper (hd-segwit-bech32-wallet.ts lines 150-192) -/

/-- The wallet state `generatePaynymClaimSignature` reads: the BIP47
feature flag (`isBIP47Enabled()`), the payment code
(`getBIP47PaymentCode()`, the empty string modelling a falsy value), the
seed-derived BIP47 notification private key (derived on demand by the
BIP47 library; carried here as the derived scalar), and unrelated wallet
state. -/
structure Wallet where
  bip47Enabled : Bool
  paymentCode : String
  notificationPrivKey : Nat
  label : String := ""
deriving DecidableEq, Repr

/-- Embeds `HDSegwitBech32Wallet.allowBIP47()` — constantly true for this wallet
type (line 64-66). -/
def allowBIP47 : Bool := true

/-- Embeds `HDSegwitBech32Wallet.generatePaynymClaimSignature(token)` (lines
150-192): guard the feature flag and the payment code, validate the
notification private key (`ECPair.fromPrivateKey` throws on a scalar
outside `[1, N)`), sign the raw token string with Bitcoin message signing
using the notification key, and return the signature base64-encoded.
Errors model the thrown exceptions. -/
def generatePaynymClaimSignature (w : Wallet) (token : String) : Except String String :=
  if !allowBIP47 || !w.bip47Enabled then .error "BIP47 is not enabled for this wallet"
  else if w.paymentCode = "" then .error "No payment code available"
  else if !(1 ≤ w.notificationPrivKey && w.notificationPrivKey < N) then
    .error "Private key not in range [1, n)"
  else .ok (base64Encode (bitcoinMessageSign token w.notificationPrivKey true))

/-- The wallet the token-sensitivity half of C4 is evaluated on: BIP47
enabled, a payment code present, notification key scalar 1. -/
def c4TestWallet : Wallet :=
  { bip47Enabled := true
    paymentCode := "PM8TJS2JxQ5ztXUpBBRnpTbcUXbUHy2T1abfrb3KkAAtMEGNbey4oumH7Hc578WgQJhPjBxteQ5GHHToTYHE3A1w6p7tU6KSoFmWBVbFGjKPisZDbP97"
    notificationPrivKey := 1 }

/-- A concrete transport script for the cache witnesses: the directory
answers `nym` with HTTP 200 and an account. -/
def c3Script : Script :=
  [Except.ok { status := 200, json := { nymID := "nym123", nymName := "+cached" } }]

/-- The summary `getPaynymInfo` builds from `c3Script` at time 1000. -/
def c3Info : PaynymInfo :=
  { code := "PM8Ttest", nymID := some "nym123", nymName := some "+cached",
    followers := some 0, following := some 0, cached_at := some 1000 }

/-- A transport script on which the directory fetch fails (HTTP 404, so
`getPaynymInfo` returns `null`). -/
def c10Script : Script := [Except.ok { status := 404, json := { message := some "Not found" } }]

/-- A reconciliation wallet fixture: BIP47 enabled, empty contact lists. -/
def c5Wallet : BIP47WalletState :=
  { bip47Enabled := true, myPaymentCode := "PM8Tme",
    sendPaymentCodes := [], receivePaymentCodes := [] }

/-- A directory fixture: the wallet's own claimed account follows
`alice_nym`, whose codes are `[{PM8TC, unclaimed}, {PM8TA, claimed}]`. -/
def c5Dir : List DirAccount :=
  [{ nymID := "my_nym", codes := [⟨true, false, "PM8Tme"⟩], following := some ["alice_nym"] },
   { nymID := "alice_nym", codes := [⟨false, false, "PM8TC"⟩, ⟨true, false, "PM8TA"⟩] }]

/-- The same directory with none of Alice's codes claimed. -/
def c5DirUnclaimed : List DirAccount :=
  [{ nymID := "my_nym", codes := [⟨true, false, "PM8Tme"⟩], following := some ["alice_nym"] },
   { nymID := "alice_nym", codes := [⟨false, false, "PM8TC"⟩, ⟨false, false, "PM8TA"⟩] }]

/-- A contact-list wallet fixture: `PM8Ta` already a sender, `PM8Tb`
already a receiver. -/
def c6Wallet : BIP47WalletState :=
  { bip47Enabled := true, myPaymentCode := "PM8Tme",
    sendPaymentCodes := ["PM8Ta"], receivePaymentCodes := ["PM8Tb"] }

end Paynym

namespace Paynym

/-! ## Sanity checks of the embedded cryptography against published
test vectors -/

/-- FIPS 180-4 test vector: SHA-256 of `"abc"`. -/
theorem sha256_abc_vector :
    sha256Bytes (utf8Encode "abc".data) =
      natToBytesBE 32 0xba7816bf8f01cfea414140de5dae2223b00361a396177a9cb410ff61f20015ad := by
  decide!

/-- RFC 4231-style HMAC-SHA256 test vector. -/
theorem hmac_vector :
    hmacSha256 (utf8Encode "key".data)
        (utf8Encode "The quick brown fox jumps over the lazy dog".data) =
      natToBytesBE 32 0xf7bc83f430538424b13298e6aa6fb143ef4d59a14946175997479dbc2d1a3cd8 := by
  decide!

/-- The group order annihilates the base point (validates the group law
and the scalar multiplication together). -/
theorem scalarMul_order_vanishes : scalarMul N (some (Gx, Gy)) = none := by decide!

/-- Checks `(N-1)·G = -G` (validates the affine conversion). -/
theorem scalarMul_order_sub_one : scalarMul (N - 1) (some (Gx, Gy)) = some (Gx, P - Gy) := by
  decide!

/-- The RFC 6979 secp256k1 test vector: key 1, message
`"Satoshi Nakamoto"` (single SHA-256 as message hash), low-s signature. -/
theorem ecdsa_rfc6979_vector :
    ecdsaSignRecoverable 1 (bytesToNatBE (sha256Bytes (utf8Encode "Satoshi Nakamoto".data))) =
      ⟨1, 0x934b1ea10a4b3c1757e2b0c017d0b6143ce3c9a7e6a4a49860d7a6ab210ee3d8,
          0x2442ce9d2b916064108014783e923ec36b49743e2ffa1c4496f01a512aafd9e5⟩ := by
  decide!

/-! ## C1 -/

/-- C1 (code_bug evidence): on a directory response with an expected
failure status, the operations do not return the mapped
`{value: null, statusCode, message}` result the claim (and the
repository's own tests) describe — `_post` throws `HTTP <status>:
<statusText>` on every non-2xx response, so the endpoint switch branches
for 400/404/401 are unreachable and each operation returns the transport
sentinel `-1` with the raw error text instead.  Evaluated here at the
tests' own scenarios (`paynym-directory.test.ts` lines 113-121, 178-196,
214-222, 252-260). -/
theorem expected_failure_statuses_collapse_to_sentinel :
    token [Except.ok { status := 404, json := { message := some "Not found" } }] =
        ⟨none, -1, "HTTP 404: Error"⟩ ∧
      create [Except.ok { status := 400, json := { message := some "Invalid code" } }] =
        ⟨none, -1, "HTTP 400: Error"⟩ ∧
      claim [Except.ok { status := 401, json := { message := some "Bad signature" } }] =
        ⟨none, -1, "HTTP 401: Error"⟩ ∧
      follow [Except.ok { status := 404, json := { message := some "Not found" } }] =
        ⟨none, -1, "HTTP 404: Error"⟩ ∧
      unfollow [Except.ok { status := 400, json := { message := some "Not following" } }] =
        ⟨none, -1, "HTTP 400: Error"⟩ ∧
      nym [Except.ok { status := 404, json := { message := some "Not found" } }] =
        ⟨none, -1, "HTTP 404: Error"⟩ := by
  decide

/-! ## C2 -/

/-- C2: a request whose first transport response is HTTP 429 is retried
exactly once after waiting the parsed `Retry-After` seconds (or the fixed
5000 ms default): exactly two transport calls happen; a 200 retry yields
the success result; a 429 retry is not retried again but surfaces the
failure (through the thrown `HTTP 429` error, which the operation maps to
its failure sentinel). -/
theorem rate_limit_retries_exactly_once :
    ∀ (r1 r2 : FetchResponse) (rest : Script), r1.status = 429 →
      (post (.ok r1 :: .ok r2 :: rest)).calls = 2 ∧
      (post (.ok r1 :: .ok r2 :: rest)).waits =
        [match r1.retryAfter with | some secs => secs * 1000 | none => 5000] ∧
      (r2.status = 200 →
        token (.ok r1 :: .ok r2 :: rest) =
          ⟨some r2.json, 200, "Token was successfully updated"⟩) ∧
      (r2.status = 429 →
        token (.ok r1 :: .ok r2 :: rest) = ⟨none, -1, "HTTP 429: " ++ r2.statusText⟩) := by
  intro r1 r2 rest h
  have hp : post (.ok r1 :: .ok r2 :: rest) =
      (if httpOk r2.status then
        ⟨.ok r2.json r2.status, 2,
          [match r1.retryAfter with | some secs => secs * 1000 | none => 5000]⟩
      else ⟨.thrown ("HTTP " ++ toString r2.status ++ ": " ++ r2.statusText), 2,
          [match r1.retryAfter with | some secs => secs * 1000 | none => 5000]⟩) := by
    simp [post, h]
  refine ⟨?_, ?_, ?_, ?_⟩
  · rw [hp]; split <;> rfl
  · rw [hp]; split <;> rfl
  · intro h2
    simp [token, hp, h2, httpOk]
  · intro h2
    simp only [token, hp, h2, httpOk]
    norm_num
    exact congrArg (fun s => s ++ r2.statusText) (by decide)

/-- Witness for C2 at the repository test's inputs
(`paynym-directory.test.ts` lines 290-303): 429 with `Retry-After: 1`
then 200 gives two calls, a 1000 ms wait and the success result; 429 then
429 surfaces the failure. -/
theorem rate_limit_retries_exactly_once_witness :
    (post [Except.ok { status := 429, retryAfter := some 1 },
      Except.ok { status := 200, json := { token := some "retry_tok" } }]).calls = 2 ∧
    (post [Except.ok { status := 429, retryAfter := some 1 },
      Except.ok { status := 200, json := { token := some "retry_tok" } }]).waits = [1000] ∧
    token [Except.ok { status := 429, retryAfter := some 1 },
        Except.ok { status := 200, json := { token := some "retry_tok" } }] =
      ⟨some { token := some "retry_tok" }, 200, "Token was successfully updated"⟩ ∧
    token [Except.ok { status := 429, retryAfter := some 1 },
        Except.ok { status := 429, retryAfter := some 1 }] =
      ⟨none, -1, "HTTP 429: Error"⟩ :=
  ⟨(rate_limit_retries_exactly_once { status := 429, retryAfter := some 1 }
      { status := 200, json := { token := some "retry_tok" } } [] rfl).1,
   (rate_limit_retries_exactly_once { status := 429, retryAfter := some 1 }
      { status := 200, json := { token := some "retry_tok" } } [] rfl).2.1,
   (rate_limit_retries_exactly_once { status := 429, retryAfter := some 1 }
      { status := 200, json := { token := some "retry_tok" } } [] rfl).2.2.1 rfl,
   (rate_limit_retries_exactly_once { status := 429, retryAfter := some 1 }
      { status := 429, retryAfter := some 1 } [] rfl).2.2.2 rfl⟩

/-! ## Cache lemmas -/

/-- Reading back a key just written. -/
theorem getItem_setItem_self (key : String) (v : StoredVal) (st : Store) :
    getItem key (setItem key v st) = some v := by
  induction st with
  | nil => simp [setItem, getItem]
  | cons kv rest ih =>
    by_cases hk : kv.1 = key
    · simp [setItem, getItem, hk]
    · simp [setItem, getItem, hk, ih]

/-- The summary a successful fetch builds is stamped with the fetch time. -/
theorem getPaynymInfo_cached_at (pc : String) (now : Nat) (script : Script) (i : PaynymInfo) :
    getPaynymInfo pc now script = some i → i.cached_at = some now := by
  intro h
  unfold getPaynymInfo at h
  split at h
  · split at h
    · injection h with h2
      subst h2
      rfl
    · exact Option.noConfusion h
  · exact Option.noConfusion h

/-! ## C3 -/

/-- C3: the cache policy of `getPaynymInfoCached` — a cache entry strictly
younger than the TTL is returned with no directory fetch; an absent or
stale entry, or `forceRefresh`, triggers exactly one fetch, whose
successful result is written to the cache keyed by the payment code before
being returned; in particular a second immediate call after a successful
fetch performs no further fetch. -/
theorem getPaynymInfoCached_cache_policy :
    ∀ (pc : String) (now : Nat) (script : Script) (store : Store),
      (∀ c t, getCachedPaynymInfo pc store = some c → c.cached_at = some t →
        now - t < CACHE_DURATION →
        getPaynymInfoCached pc false now script store = ⟨some c, store, 0⟩) ∧
      (getCachedPaynymInfo pc store = none →
        (getPaynymInfoCached pc false now script store).nymCalls = 1 ∧
        ∀ i, getPaynymInfo pc now script = some i →
          getPaynymInfoCached pc false now script store =
            ⟨some i, cachePaynymInfo pc i store, 1⟩) ∧
      (∀ c t, getCachedPaynymInfo pc store = some c → c.cached_at = some t →
        ¬(now - t < CACHE_DURATION) →
        (getPaynymInfoCached pc false now script store).nymCalls = 1 ∧
        ∀ i, getPaynymInfo pc now script = some i →
          getPaynymInfoCached pc false now script store =
            ⟨some i, cachePaynymInfo pc i store, 1⟩) ∧
      ((getPaynymInfoCached pc true now script store).nymCalls = 1 ∧
        ∀ i, getPaynymInfo pc now script = some i →
          getPaynymInfoCached pc true now script store =
            ⟨some i, cachePaynymInfo pc i store, 1⟩) ∧
      (∀ i (now2 : Nat) (script2 : Script), getCachedPaynymInfo pc store = none →
        getPaynymInfo pc now script = some i → now2 - now < CACHE_DURATION →
        (getPaynymInfoCached pc false now script store).nymCalls = 1 ∧
        getPaynymInfoCached pc false now2 script2
            (getPaynymInfoCached pc false now script store).store =
          ⟨some i, (getPaynymInfoCached pc false now script store).store, 0⟩) := by
  intro pc now script store
  refine ⟨?_, ?_, ?_, ?_, ?_⟩
  · intro c t hc ht hfresh
    simp [getPaynymInfoCached, hc, ht, hfresh]
  · intro hc
    constructor
    · cases hi : getPaynymInfo pc now script <;> simp [getPaynymInfoCached, hc, hi]
    · intro i hi
      simp [getPaynymInfoCached, hc, hi]
  · intro c t hc ht hstale
    constructor
    · cases hi : getPaynymInfo pc now script <;> simp [getPaynymInfoCached, hc, ht, hstale, hi]
    · intro i hi
      simp [getPaynymInfoCached, hc, ht, hstale, hi]
  · constructor
    · cases hi : getPaynymInfo pc now script <;> simp [getPaynymInfoCached, hi]
    · intro i hi
      simp [getPaynymInfoCached, hi]
  · intro i now2 script2 hc hi hfresh
    have h1 : getPaynymInfoCached pc false now script store =
        ⟨some i, cachePaynymInfo pc i store, 1⟩ := by
      simp [getPaynymInfoCached, hc, hi]
    have hrb : getCachedPaynymInfo pc (cachePaynymInfo pc i store) = some i := by
      simp [getCachedPaynymInfo, cachePaynymInfo, getItem_setItem_self]
    have hstamp : i.cached_at = some now := getPaynymInfo_cached_at pc now script i hi
    refine ⟨by rw [h1], ?_⟩
    rw [h1]
    simp [getPaynymInfoCached, hrb, hstamp, hfresh]

/-- Witness for C3: on an empty store, the first call fetches once and
writes the entry; an immediate second call (500 ms later, empty transport
script) is served from the cache with no fetch. -/
theorem getPaynymInfoCached_cache_policy_witness :
    getPaynymInfoCached "PM8Ttest" false 1000 c3Script [] =
      ⟨some c3Info, [(cacheKey "PM8Ttest", .info c3Info)], 1⟩ ∧
    getPaynymInfoCached "PM8Ttest" false 1500 [] [(cacheKey "PM8Ttest", .info c3Info)] =
      ⟨some c3Info, [(cacheKey "PM8Ttest", .info c3Info)], 0⟩ := by
  constructor
  · exact ((getPaynymInfoCached_cache_policy "PM8Ttest" 1000 c3Script []).2.1
      (by decide)).2 c3Info (by decide)
  · exact (getPaynymInfoCached_cache_policy "PM8Ttest" 1500 []
      [(cacheKey "PM8Ttest", .info c3Info)]).1 c3Info 1000 (by decide) (by decide) (by decide)

/-! ## C10 -/

/-- When the directory fetch yields nothing, no cache path modifies the
store. -/
theorem getPaynymInfoCached_store_frame (pc : String) (fr : Bool) (now : Nat)
    (script : Script) (store : Store) (hn : getPaynymInfo pc now script = none) :
    (getPaynymInfoCached pc fr now script store).store = store := by
  cases fr with
  | true => simp [getPaynymInfoCached, hn]
  | false =>
    rcases hcc : getCachedPaynymInfo pc store with _ | c
    · simp [getPaynymInfoCached, hcc, hn]
    · rcases hca : c.cached_at with _ | t
      · simp [getPaynymInfoCached, hcc, hca, hn]
      · by_cases hfresh : now - t < CACHE_DURATION
        · simp [getPaynymInfoCached, hcc, hca, hfresh]
        · simp [getPaynymInfoCached, hcc, hca, hfresh, hn]

/-- C10: a failed directory fetch (error or no account) leaves the cache
untouched — no entry is written, none (even an expired one) is removed —
and the call returns `null`; dually, a store change implies the fetch
succeeded. -/
theorem getPaynymInfoCached_failure_writes_nothing :
    ∀ (pc : String) (now : Nat) (script : Script) (store : Store),
      (getPaynymInfo pc now script = none →
        (∀ fr, (getPaynymInfoCached pc fr now script store).store = store) ∧
        (getPaynymInfoCached pc true now script store).info = none ∧
        (getCachedPaynymInfo pc store = none →
          (getPaynymInfoCached pc false now script store).info = none)) ∧
      (∀ fr, (getPaynymInfoCached pc fr now script store).store ≠ store →
        ∃ i, getPaynymInfo pc now script = some i) := by
  intro pc now script store
  constructor
  · intro hn
    refine ⟨fun fr => getPaynymInfoCached_store_frame pc fr now script store hn, ?_, ?_⟩
    · simp [getPaynymInfoCached, hn]
    · intro hcc
      simp [getPaynymInfoCached, hcc, hn]
  · intro fr hne
    cases hi : getPaynymInfo pc now script with
    | some i => exact ⟨i, rfl⟩
    | none => exact absurd (getPaynymInfoCached_store_frame pc fr now script store hi) hne

/-- Witness for C10: a 404 fetch over a store holding one expired entry
changes nothing and returns `null` (both forced and unforced), and over
the empty store returns `null`. -/
theorem getPaynymInfoCached_failure_writes_nothing_witness :
    (∀ fr, (getPaynymInfoCached "PM8Ttest" fr 999999999 c10Script
        [(cacheKey "PM8Ttest", .info c3Info)]).store =
      [(cacheKey "PM8Ttest", .info c3Info)]) ∧
    (getPaynymInfoCached "PM8Ttest" true 999999999 c10Script
        [(cacheKey "PM8Ttest", .info c3Info)]).info = none ∧
    (getPaynymInfoCached "PM8Ttest" false 999999999 c10Script []).info = none := by
  refine ⟨?_, ?_, ?_⟩
  · exact ((getPaynymInfoCached_failure_writes_nothing "PM8Ttest" 999999999 c10Script
      [(cacheKey "PM8Ttest", .info c3Info)]).1 (by decide)).1
  · exact ((getPaynymInfoCached_failure_writes_nothing "PM8Ttest" 999999999 c10Script
      [(cacheKey "PM8Ttest", .info c3Info)]).1 (by decide)).2.1
  · exact ((getPaynymInfoCached_failure_writes_nothing "PM8Ttest" 999999999 c10Script
      []).1 (by decide)).2.2 (by decide)

/-! ## C9 -/

/-- Removing a list of keys one by one keeps exactly the entries whose key
is not among them. -/
theorem foldl_removeItem (L : List String) (st : Store) :
    L.foldl (fun acc k => removeItem k acc) st =
      st.filter (fun kv => !(L.contains kv.1)) := by
  induction L generalizing st with
  | nil => simp [List.filter]
  | cons a L ih =>
    rw [List.foldl_cons, ih, removeItem, List.filter_filter]
    apply List.filter_congr
    intro kv _
    rw [List.contains_cons, Bool.not_or, bne, Bool.and_comm]

/-- C9: `clearCache` removes exactly the keys in the cache namespace — the
result is the original store with every `paynym_dir_`-prefixed entry
removed and every other entry untouched, in order. -/
theorem clearCache_removes_exactly_namespace :
    ∀ store : Store,
      clearCache store = store.filter (fun kv => !(kv.1.startsWith storageKeyStart)) := by
  intro store
  unfold clearCache
  rw [foldl_removeItem]
  apply List.filter_congr
  intro kv hkv
  refine congrArg (fun b => !b) ?_
  rw [Bool.eq_iff_iff]
  constructor
  · intro hc
    rcases List.contains_iff_exists_mem_beq.mp hc with ⟨k, hk, he⟩
    rcases List.mem_filter.mp hk with ⟨_, hs⟩
    rwa [show kv.1 = k from by simpa using he]
  · intro hs
    have hmem : kv.1 ∈ (getAllKeys store).filter (fun k => k.startsWith storageKeyStart) :=
      List.mem_filter.mpr ⟨List.mem_map_of_mem Prod.fst hkv, hs⟩
    exact List.contains_iff_exists_mem_beq.mpr ⟨kv.1, hmem, by simp⟩

/-! ## C6 -/

/-- C6 (spec-modelled): `addBIP47Receiver` is idempotent for list
membership — re-adding changes nothing, an add leaves exactly one entry
for the code when the list held at most one — and a code already in the
receiver list is added to the sender list while remaining a receiver
(bidirectional membership). -/
theorem addBIP47Receiver_idempotent :
    ∀ (w : BIP47WalletState) (code : String),
      addBIP47Receiver (addBIP47Receiver w code) code = addBIP47Receiver w code ∧
      (List.count code w.sendPaymentCodes ≤ 1 →
        List.count code (addBIP47Receiver w code).sendPaymentCodes = 1) ∧
      (code ∈ w.receivePaymentCodes →
        code ∈ (addBIP47Receiver w code).sendPaymentCodes ∧
        code ∈ (addBIP47Receiver w code).receivePaymentCodes) := by
  intro w code
  refine ⟨?_, ?_, ?_⟩
  · by_cases h : code ∈ w.sendPaymentCodes
    · simp [addBIP47Receiver, h]
    · simp [addBIP47Receiver, h]
  · intro hc
    by_cases h : code ∈ w.sendPaymentCodes
    · have hpos : 0 < List.count code w.sendPaymentCodes := List.count_pos_iff.mpr h
      simp [addBIP47Receiver, h]
      omega
    · have hz : List.count code w.sendPaymentCodes = 0 := by
        simpa using List.count_eq_zero.mpr h
      simp [addBIP47Receiver, h, List.count_append, hz]
  · intro hr
    by_cases h : code ∈ w.sendPaymentCodes
    · simp [addBIP47Receiver, h, hr]
    · simp [addBIP47Receiver, h, hr]

/-- Witness for C6 on `c6Wallet`: adding the receiver `PM8Tb` to the
sender list is stable under repetition, yields exactly one entry, and
leaves it a member of both lists. -/
theorem addBIP47Receiver_idempotent_witness :
    addBIP47Receiver (addBIP47Receiver c6Wallet "PM8Tb") "PM8Tb" =
      addBIP47Receiver c6Wallet "PM8Tb" ∧
    List.count "PM8Tb" (addBIP47Receiver c6Wallet "PM8Tb").sendPaymentCodes = 1 ∧
    "PM8Tb" ∈ (addBIP47Receiver c6Wallet "PM8Tb").sendPaymentCodes ∧
    "PM8Tb" ∈ (addBIP47Receiver c6Wallet "PM8Tb").receivePaymentCodes :=
  ⟨(addBIP47Receiver_idempotent c6Wallet "PM8Tb").1,
   (addBIP47Receiver_idempotent c6Wallet "PM8Tb").2.1 (by decide),
   ((addBIP47Receiver_idempotent c6Wallet "PM8Tb").2.2 (by decide)).1,
   ((addBIP47Receiver_idempotent c6Wallet "PM8Tb").2.2 (by decide)).2⟩

/-! ## C5 -/

/-- C5 (spec-modelled): `fetchBIP47ReceiverPaymentCodesViaPaynym` is a
no-op when the feature is disabled, when the directory has no account for
the wallet, or when `following` is absent or empty; for a followed nym it
resolves the account and inserts exactly the selected code — the first
`claimed` one, else the first in list order — skipping codes already in
the sender list. -/
theorem fetchBIP47ReceiverPaymentCodes_policy :
    ∀ (w : BIP47WalletState) (dir : List DirAccount),
      (w.bip47Enabled = false → fetchBIP47ReceiverPaymentCodesViaPaynym w dir = w) ∧
      (dirLookup dir w.myPaymentCode = none →
        fetchBIP47ReceiverPaymentCodesViaPaynym w dir = w) ∧
      (∀ acc, dirLookup dir w.myPaymentCode = some acc → acc.following = none →
        fetchBIP47ReceiverPaymentCodesViaPaynym w dir = w) ∧
      (∀ acc, dirLookup dir w.myPaymentCode = some acc → acc.following = some [] →
        fetchBIP47ReceiverPaymentCodesViaPaynym w dir = w) ∧
      (∀ acc nid facc, w.bip47Enabled = true →
        dirLookup dir w.myPaymentCode = some acc → acc.following = some [nid] →
        dirLookup dir nid = some facc →
        fetchBIP47ReceiverPaymentCodesViaPaynym w dir =
          (match selectPaymentCode facc.codes with
            | some c => addBIP47Receiver w c
            | none => w)) ∧
      (∀ (cA cB : String) (sA sB : Bool),
        selectPaymentCode [⟨false, sA, cA⟩, ⟨true, sB, cB⟩] = some cB ∧
        selectPaymentCode [⟨false, sA, cA⟩, ⟨false, sB, cB⟩] = some cA) ∧
      (∀ c, c ∈ w.sendPaymentCodes → addBIP47Receiver w c = w) := by
  intro w dir
  refine ⟨?_, ?_, ?_, ?_, ?_, ?_, ?_⟩
  · intro hb
    simp [fetchBIP47ReceiverPaymentCodesViaPaynym, hb]
  · intro hl
    cases hb : w.bip47Enabled <;>
      simp [fetchBIP47ReceiverPaymentCodesViaPaynym, hb, hl]
  · intro acc hl hf
    cases hb : w.bip47Enabled <;>
      simp [fetchBIP47ReceiverPaymentCodesViaPaynym, hb, hl, hf]
  · intro acc hl hf
    cases hb : w.bip47Enabled <;>
      simp [fetchBIP47ReceiverPaymentCodesViaPaynym, hb, hl, hf]
  · intro acc nid facc hb hl hf hfl
    simp [fetchBIP47ReceiverPaymentCodesViaPaynym, hb, hl, hf, hfl]
    cases selectPaymentCode facc.codes <;> rfl
  · intro cA cB sA sB
    constructor <;> simp [selectPaymentCode]
  · intro c hc
    simp [addBIP47Receiver, hc]

/-- Witness for C5 on the concrete fixtures: with codes
`[{PM8TC, unclaimed}, {PM8TA, claimed}]` the sender list gains exactly the
claimed `PM8TA`; with both unclaimed it gains the first code `PM8TC`; a
directory where the wallet has no account leaves the wallet unchanged. -/
theorem fetchBIP47ReceiverPaymentCodes_policy_witness :
    fetchBIP47ReceiverPaymentCodesViaPaynym c5Wallet c5Dir =
      { c5Wallet with sendPaymentCodes := ["PM8TA"] } ∧
    fetchBIP47ReceiverPaymentCodesViaPaynym c5Wallet c5DirUnclaimed =
      { c5Wallet with sendPaymentCodes := ["PM8TC"] } ∧
    fetchBIP47ReceiverPaymentCodesViaPaynym c5Wallet [] = c5Wallet := by
  refine ⟨?_, ?_, ?_⟩
  · exact (fetchBIP47ReceiverPaymentCodes_policy c5Wallet c5Dir).2.2.2.2.1
      { nymID := "my_nym", codes := [⟨true, false, "PM8Tme"⟩], following := some ["alice_nym"] }
      "alice_nym"
      { nymID := "alice_nym", codes := [⟨false, false, "PM8TC"⟩, ⟨true, false, "PM8TA"⟩] }
      rfl (by decide) rfl (by decide)
  · exact (fetchBIP47ReceiverPaymentCodes_policy c5Wallet c5DirUnclaimed).2.2.2.2.1
      { nymID := "my_nym", codes := [⟨true, false, "PM8Tme"⟩], following := some ["alice_nym"] }
      "alice_nym"
      { nymID := "alice_nym", codes := [⟨false, false, "PM8TC"⟩, ⟨false, false, "PM8TA"⟩] }
      rfl (by decide) rfl (by decide)
  · exact (fetchBIP47ReceiverPaymentCodes_policy c5Wallet []).2.1 rfl

/-! ## C7 -/

/-- The core `Char.utf8Size` with its `let` unfolded. -/
theorem utf8Size_unfolded (c : Char) :
    c.utf8Size =
      if c.val ≤ UInt32.ofNatCore 127 Char.utf8Size.proof_1 then 1
      else if c.val ≤ UInt32.ofNatCore 2047 Char.utf8Size.proof_2 then 2
      else if c.val ≤ UInt32.ofNatCore 65535 Char.utf8Size.proof_3 then 3
      else 4 := rfl

/-- The byte list `utf8EncodeChar` produces has exactly the length the
core `Char.utf8Size` predicts. -/
theorem utf8EncodeChar_length (c : Char) : (utf8EncodeChar c).length = c.utf8Size := by
  rw [utf8Size_unfolded]
  unfold utf8EncodeChar
  by_cases h1 : c.toNat < 128
  · rw [if_pos h1, if_pos (show c.val ≤ UInt32.ofNatCore 127 Char.utf8Size.proof_1 from
      Nat.le_of_lt_succ h1)]
    rfl
  · rw [if_neg h1, if_neg (show ¬c.val ≤ UInt32.ofNatCore 127 Char.utf8Size.proof_1 from
      fun hh => h1 (Nat.lt_succ_of_le hh))]
    by_cases h2 : c.toNat < 2048
    · rw [if_pos h2, if_pos (show c.val ≤ UInt32.ofNatCore 2047 Char.utf8Size.proof_2 from
        Nat.le_of_lt_succ h2)]
      rfl
    · rw [if_neg h2, if_neg (show ¬c.val ≤ UInt32.ofNatCore 2047 Char.utf8Size.proof_2 from
        fun hh => h2 (Nat.lt_succ_of_le hh))]
      by_cases h3 : c.toNat < 65536
      · rw [if_pos h3, if_pos (show c.val ≤ UInt32.ofNatCore 65535 Char.utf8Size.proof_3 from
          Nat.le_of_lt_succ h3)]
        rfl
      · rw [if_neg h3, if_neg (show ¬c.val ≤ UInt32.ofNatCore 65535 Char.utf8Size.proof_3 from
          fun hh => h3 (Nat.lt_succ_of_le hh))]
        rfl

/-- A character outside the ASCII range needs at least two UTF-8 bytes. -/
theorem two_le_utf8Size (c : Char) (h : 128 ≤ c.toNat) : 2 ≤ c.utf8Size := by
  rw [utf8Size_unfolded,
    if_neg (show ¬c.val ≤ UInt32.ofNatCore 127 Char.utf8Size.proof_1 from
      fun hh => absurd (Nat.lt_succ_of_le hh) (Nat.not_lt.mpr h))]
  split
  · omega
  · split <;> omega

/-- The encoder `utf8Encode` produces exactly `utf8Len` bytes. -/
theorem utf8Encode_length (l : List Char) :
    (utf8Encode l).length = String.utf8Len l := by
  induction l with
  | nil => rfl
  | cons c cs ih =>
    rw [utf8Encode, List.length_append, utf8EncodeChar_length, ih, String.utf8Len_cons]
    omega

/-- The UTF-8 byte count dominates the character count, strictly when a
character outside the ASCII range is present. -/
theorem length_lt_utf8Len (l : List Char) (c : Char) (hc : c ∈ l) (h : 128 ≤ c.toNat) :
    l.length < String.utf8Len l := by
  induction l with
  | nil => cases hc
  | cons a rest ih =>
    have hrest : rest.length ≤ String.utf8Len rest := by
      clear hc ih
      induction rest with
      | nil => exact Nat.le_refl 0
      | cons b bs ihb =>
        rw [String.utf8Len_cons]
        have := Char.utf8Size_pos b
        simp only [List.length_cons]
        omega
    rw [String.utf8Len_cons, List.length_cons]
    rcases List.mem_cons.mp hc with he | hm
    · subst he
      have := two_le_utf8Size c h
      omega
    · have := ih hm
      have := Char.utf8Size_pos a
      omega

/-- The `JSON.stringify` escaping passes characters outside the ASCII range through
unescaped. -/
theorem escapeJsonChar_high (c : Char) (h : 128 ≤ c.toNat) : escapeJsonChar c = [c] := by
  unfold escapeJsonChar
  rw [if_neg (fun he => absurd (he ▸ h) (by decide)),
    if_neg (fun he => absurd (he ▸ h) (by decide)),
    if_neg (fun he => absurd (he ▸ h) (by decide)),
    if_neg (fun he => absurd (he ▸ h) (by decide)),
    if_neg (fun he => absurd (he ▸ h) (by decide)),
    if_neg (fun he => absurd (he ▸ h) (by decide)),
    if_neg (fun he => absurd (he ▸ h) (by decide)),
    if_neg (by omega)]

/-- Membership of a non-ASCII character survives `JSON.stringify`
escaping. -/
theorem mem_escapeJsonChars (l : List Char) (c : Char) (h : 128 ≤ c.toNat) (hm : c ∈ l) :
    c ∈ escapeJsonChars l := by
  induction l with
  | nil => cases hm
  | cons a rest ih =>
    rw [escapeJsonChars]
    rcases List.mem_cons.mp hm with he | hm2
    · subst he
      rw [escapeJsonChar_high c h]
      exact List.mem_append_left _ (List.mem_singleton.mpr rfl)
    · exact List.mem_append_right _ (ih hm2)

/-- Membership of a non-ASCII character of a body value survives the whole
body serialization. -/
theorem mem_jsonFieldsChars (body : List (String × JVal)) (k : String) (s : String)
    (c : Char) (hb : (k, JVal.str s) ∈ body) (hc : c ∈ s.data) (h : 128 ≤ c.toNat) :
    c ∈ jsonFieldsChars body := by
  have hfield : c ∈ jsonFieldChars (k, JVal.str s) := by
    rw [jsonFieldChars]
    refine List.mem_append_right _ ?_
    refine List.mem_cons_of_mem _ ?_
    show c ∈ quoteJsonChars s.data
    rw [quoteJsonChars]
    refine List.mem_cons_of_mem _ ?_
    exact List.mem_append_left _ (mem_escapeJsonChars s.data c h hc)
  induction body with
  | nil => cases hb
  | cons kv rest ih =>
    cases rest with
    | nil =>
      rcases List.mem_singleton.mp hb with he
      rw [he] at hfield
      exact hfield
    | cons kv2 rest2 =>
      rw [show jsonFieldsChars (kv :: kv2 :: rest2) =
          jsonFieldChars kv ++ ',' :: jsonFieldsChars (kv2 :: rest2) from rfl]
      rcases List.mem_cons.mp hb with he | hm2

      · rw [← he]
        exact List.mem_append_left _ hfield
      · exact List.mem_append_right _ (List.mem_cons_of_mem _ (ih hm2))

/-- C7: the computed `Content-Length` equals the length of the UTF-8
encoding of the serialized JSON body; when any body value holds a
character outside the ASCII range the byte length strictly exceeds the
serialized body's character count. -/
theorem contentLength_is_utf8_byte_length :
    (∀ body, contentLength body = (utf8Encode (jsonStringify body).data).length) ∧
    (∀ body (k s : String) (c : Char), (k, JVal.str s) ∈ body → c ∈ s.data →
      128 ≤ c.toNat → (jsonStringify body).length < contentLength body) := by
  constructor
  · intro body
    rw [utf8Encode_length]
    rfl
  · intro body k s c hb hc h
    have hm : c ∈ (jsonStringify body).data := by
      rw [jsonStringify]
      refine List.mem_cons_of_mem _ ?_
      exact List.mem_append_left _ (mem_jsonFieldsChars body k s c hb hc h)
    exact length_lt_utf8Len (jsonStringify body).data c hm h

/-- Witness for C7 at a body with accented characters (the repo test's
scenario, `paynym-directory.test.ts` lines 275-287). -/
theorem contentLength_is_utf8_byte_length_witness :
    contentLength [("nym", JVal.str "PM8Téèê")] =
      (utf8Encode (jsonStringify [("nym", JVal.str "PM8Téèê")]).data).length ∧
    (jsonStringify [("nym", JVal.str "PM8Téèê")]).length <
      contentLength [("nym", JVal.str "PM8Téèê")] :=
  ⟨contentLength_is_utf8_byte_length.1 [("nym", JVal.str "PM8Téèê")],
   contentLength_is_utf8_byte_length.2 [("nym", JVal.str "PM8Téèê")] "nym" "PM8Téèê" 'é'
     (by decide) (by decide) (by decide)⟩

/-! ## C8 -/

/-- C8: for every token, `generatePaynymClaimSignature` throws the
feature-disabled error whenever the wallet's BIP47 feature is not
enabled. -/
theorem generatePaynymClaimSignature_requires_bip47 :
    ∀ (w : Wallet) (tok : String), w.bip47Enabled = false →
      generatePaynymClaimSignature w tok = .error "BIP47 is not enabled for this wallet" := by
  intro w tok h
  simp [generatePaynymClaimSignature, allowBIP47, h]

/-- Witness for C8 at the repo test's scenario (BIP47 disabled by
default, `should throw when BIP47 is not enabled`). -/
theorem generatePaynymClaimSignature_requires_bip47_witness :
    generatePaynymClaimSignature ⟨false, "PM8Tx", 1, ""⟩ "test_token" =
        .error "BIP47 is not enabled for this wallet" ∧
      (⟨false, "PM8Tx", 1, ""⟩ : Wallet).bip47Enabled = false :=
  ⟨generatePaynymClaimSignature_requires_bip47 ⟨false, "PM8Tx", 1, ""⟩ "test_token" rfl, rfl⟩

/-! ## C4 -/

/-- The concrete recoverable signature over `magicHash "token_a"` with
key 1 (kernel-evaluated). -/
theorem ecdsa_token_a_eval :
    ecdsaSignRecoverable 1 (magicHash "token_a") =
      ⟨1, 80734315661159821302225828532315974004825891855194035809598697102426905739608,
          7497165174766951159551183477324504529250680078581889088272548555992623794274⟩ := by
  decide!

/-- The concrete recoverable signature over `magicHash "token_b"` with
key 1 (kernel-evaluated). -/
theorem ecdsa_token_b_eval :
    ecdsaSignRecoverable 1 (magicHash "token_b") =
      ⟨1, 16472455159422883560513248067558884017853273282550525478808660311818580383364,
          36121445414428601151813676230997880043299559643050323111006198180226849156827⟩ := by
  decide!

/-- The 65-byte signature for `"token_a"`, key 1, compressed. -/
theorem sign_token_a_eval :
    bitcoinMessageSign "token_a" 1 true =
      32 :: int2octets32
          80734315661159821302225828532315974004825891855194035809598697102426905739608 ++
        int2octets32
          7497165174766951159551183477324504529250680078581889088272548555992623794274 := by
  unfold bitcoinMessageSign
  rw [ecdsa_token_a_eval]
  rfl

/-- The 65-byte signature for `"token_b"`, key 1, compressed. -/
theorem sign_token_b_eval :
    bitcoinMessageSign "token_b" 1 true =
      32 :: int2octets32
          16472455159422883560513248067558884017853273282550525478808660311818580383364 ++
        int2octets32
          36121445414428601151813676230997880043299559643050323111006198180226849156827 := by
  unfold bitcoinMessageSign
  rw [ecdsa_token_b_eval]
  rfl

/-- C4: the claim signature is a pure function of `(token, key)` — any two
wallets with the feature enabled, a payment code present and the same
notification key produce identical signatures for the same token,
whatever their other state — and different tokens produce different
signatures for the same key, evaluated on the test wallet at the repo
test's tokens `token_a`/`token_b`. -/
theorem claim_signature_deterministic_and_token_sensitive :
    (∀ (w w' : Wallet) (tok : String), w.bip47Enabled = true → w'.bip47Enabled = true →
      ¬w.paymentCode = "" → ¬w'.paymentCode = "" →
      w.notificationPrivKey = w'.notificationPrivKey →
      generatePaynymClaimSignature w tok = generatePaynymClaimSignature w' tok) ∧
    generatePaynymClaimSignature c4TestWallet "token_a" ≠
      generatePaynymClaimSignature c4TestWallet "token_b" := by
  constructor
  · intro w w' tok h1 h1' h2 h2' hk
    simp [generatePaynymClaimSignature, allowBIP47, h1, h1', h2, h2', hk]
  · intro heq
    have ea : generatePaynymClaimSignature c4TestWallet "token_a" =
        .ok (base64Encode (bitcoinMessageSign "token_a" 1 true)) := rfl
    have eb : generatePaynymClaimSignature c4TestWallet "token_b" =
        .ok (base64Encode (bitcoinMessageSign "token_b" 1 true)) := rfl
    rw [ea, eb] at heq
    injection heq with hsig
    rw [sign_token_a_eval, sign_token_b_eval] at hsig
    exact absurd hsig (by decide)

/-- Witness for C4: two wallets differing in payment code and label but
sharing the notification key sign `deterministic_test` identically (and
the token-sensitivity half is itself concrete). -/
theorem claim_signature_deterministic_witness :
    generatePaynymClaimSignature ⟨true, "PM8Ta", 7, "wallet one"⟩ "deterministic_test" =
      generatePaynymClaimSignature ⟨true, "PM8Tb", 7, "wallet two"⟩ "deterministic_test" :=
  claim_signature_deterministic_and_token_sensitive.1
    ⟨true, "PM8Ta", 7, "wallet one"⟩ ⟨true, "PM8Tb", 7, "wallet two"⟩ "deterministic_test"
    rfl rfl (by decide) (by decide) rfl

end Paynym
